import Mathlib

/-!
The nmap-gui program: scan orchestration and report formatting.

A shallow embedding of `runNmapScan`, `updateResult` and `formatResults`
from `main.go`, together with the button callback of `main` that starts a
scan, and the properties of the report and of the log that follow from them.

Conventions of the embedding.

* Go strings are Lean strings; `strings.Builder.WriteString` is `++` on the
  builder contents.
* An index expression `xs[0]` is `xs[0]?`: `none` stands for the run-time
  panic "index out of range".
* The widgets are only ever driven through method calls, so the observable
  behaviour of a scan is the sequence of those calls (`Event`), in program
  order.
* The scan engine (`nmap.NewScanner`, `Scanner.Run`) is a collaborator
  outside the repository: it is a parameter of the model.
-/

set_option linter.dupNamespace false
set_option maxRecDepth 8000

namespace NmapGui

/-! ## Values of the scan engine's result

The declarations of the `nmap` types are not part of `main.go`; each type below has
the fields that `main.go` reads, with the types of the data model of the
specification (section 3). -/

/-- Go `float32` value: a finite dyadic number `(-1)^neg * mant * 2^exp`,
an infinity, or a NaN. -/
inductive Float32 where
  | finite (neg : Bool) (mant : Nat) (exp : Int)
  | inf (neg : Bool)
  | nan
  deriving DecidableEq, Repr

/-- Modelled from the spec: the declaration of `nmap.Address` is missing; an
address string, read through `Addr`. -/
structure Address where
  Addr : String
  deriving DecidableEq, Repr

/-- Modelled from the spec: the declaration of `nmap.Hostname` is missing; a
name string, read through `Name`. -/
structure Hostname where
  Name : String
  deriving DecidableEq, Repr

/-- Modelled from the spec: the declaration of `nmap.Status` is missing; the
state label of a host, read through `State`. -/
structure Status where
  State : String
  deriving DecidableEq, Repr

/-- Modelled from the spec: the declaration of `nmap.State` is missing; the
state of a port, read through `State`. -/
structure State where
  State : String
  deriving DecidableEq, Repr

/-- Modelled from the spec: the declaration of `nmap.Service` is missing;
service name and product of a port (either may be empty). -/
structure Service where
  Name : String
  Product : String
  deriving DecidableEq, Repr

/-- Modelled from the spec: the declaration of `nmap.Port` is missing (the
PortResult of the data model). `ID` is an unsigned port number that is only
printed. -/
structure Port where
  ID : Nat
  Protocol : String
  State : State
  Service : Service
  deriving DecidableEq, Repr

/-- Modelled from the spec: the declaration of `nmap.Host` is missing (the
HostResult of the data model). Both `Addresses` and `Hostnames` are Go
slices, which may be empty. -/
structure Host where
  Addresses : List Address
  Hostnames : List Hostname
  Status : Status
  Ports : List Port
  deriving DecidableEq, Repr

/-- Modelled from the spec: the declaration of `nmap.Finished` is missing; the
elapsed seconds, read through `Elapsed`. -/
structure Finished where
  Elapsed : Float32
  deriving DecidableEq, Repr

/-- Modelled from the spec: the declaration of `nmap.Stats` is missing; read
through `Finished`. -/
structure Stats where
  Finished : Finished
  deriving DecidableEq, Repr

/-- Modelled from the spec: the declaration of `nmap.Run` is missing (the
ScanResult of the data model): the hosts in the order of the engine, and
the statistics holding the elapsed seconds. -/
structure Run where
  Hosts : List Host
  Stats : Stats
  deriving DecidableEq, Repr

/-! ## `fmt.Sprintf` verbs used by `main.go` -/

/-- Verb `%d` on a non-negative integer: its decimal digits. -/
def fmtInt (n : Nat) : String := Nat.repr n

/-- Nearest integer to `num / den`, ties going to the even neighbour. -/
def roundHalfEven (num den : Nat) : Nat :=
  let q := num / den
  let r := num % den
  if den < 2 * r ∨ (2 * r = den ∧ q % 2 = 1) then q + 1 else q

/-- The magnitude `mant * 2^exp` in hundredths, rounded to the nearest
hundredth (ties to even), as `strconv` does for a fixed precision of 2. -/
def hundredths (mant : Nat) (exp : Int) : Nat :=
  match exp with
  | Int.ofNat k => mant * 2 ^ k * 100
  | Int.negSucc k => roundHalfEven (mant * 100) (2 ^ (k + 1))

/-- One decimal digit as a one-character string. -/
def digitStr (d : Nat) : String := String.singleton (Nat.digitChar d)

/-- Verb `%.2f` on a `float32`: sign, integer part, point, two digits for a
finite value; `NaN`, `+Inf`, `-Inf` otherwise. -/
def fmtFloat2 : Float32 → String
  | Float32.nan => "NaN"
  | Float32.inf false => "+Inf"
  | Float32.inf true => "-Inf"
  | Float32.finite neg mant exp =>
    (if neg then "-" else "") ++ fmtInt (hundredths mant exp / 100) ++ "."
      ++ digitStr (hundredths mant exp % 100 / 10) ++ digitStr (hundredths mant exp % 10)

/-- Verb `%s` on a slice of strings: the elements separated by one space,
inside square brackets. -/
def fmtStrings (ws : List String) : String := "[" ++ " ".intercalate ws ++ "]"

/-! ## `formatResults` -/

/-- The inner loop of `formatResults` (`for _, port := range host.Ports`):
one `WriteString` per port. -/
def writePorts (builder : String) : List Port → String
  | [] => builder
  | port :: rest =>
    writePorts
      (builder ++ ("    Port " ++ fmtInt port.ID ++ "/" ++ port.Protocol ++ " - State: "
        ++ port.State.State ++ ", Service: " ++ port.Service.Name ++ ", Version: "
        ++ port.Service.Product ++ "\n"))
      rest

/-- The body of the outer loop of `formatResults` for one host. The two index
expressions are evaluated left to right before anything is written. -/
def writeHost (builder : String) (host : Host) : Option String :=
  match host.Addresses[0]? with
  | none => none
  | some address =>
    match host.Hostnames[0]? with
    | none => none
    | some hostname =>
      let builder := builder ++ ("Host: " ++ address.Addr ++ " (" ++ hostname.Name ++ ")\n")
      let builder := builder ++ ("  Status: " ++ host.Status.State ++ "\n")
      let builder :=
        if host.Ports.length > 0 then
          writePorts (builder ++ "  Open Ports:\n") host.Ports
        else
          builder ++ "  No open ports found.\n"
      some (builder ++ "\n")

/-- The outer loop of `formatResults` (`for _, host := range result.Hosts`). -/
def writeHosts (builder : String) : List Host → Option String
  | [] => some builder
  | host :: rest =>
    match writeHost builder host with
    | none => none
    | some builder => writeHosts builder rest

/-- The function `formatResults`: the text it hands to `updateResult`, or `none`
when it panics before reaching that call. -/
def formatResults (result : Run) : Option String :=
  let builder := ""
  let builder := builder ++ "\n\n--- Nmap Scan Complete ---\n"
  let builder := builder ++ ("Scan finished: " ++ fmtInt result.Hosts.length ++ " hosts up, in "
    ++ fmtFloat2 result.Stats.Finished.Elapsed ++ " seconds.\n\n")
  writeHosts builder result.Hosts

/-! ## Widgets, the scan engine, and the calls made on them -/

/-- One call on a widget or on the scan engine. -/
inductive Event where
  /-- The call `scanButton.Disable()`. -/
  | buttonDisable
  /-- The call `scanButton.Enable()`. -/
  | buttonEnable
  /-- The call `progressBar.Show()`. -/
  | barShow
  /-- The call `progressBar.Hide()`. -/
  | barHide
  /-- The call `progressBar.SetValue(value / divisor)`. -/
  | barSetValue (value : Float32) (divisor : Nat)
  /-- The call `resultOutput.SetText(text)`. -/
  | outputSetText (text : String)
  /-- The call `resultOutput.Append(text)`. -/
  | outputAppend (text : String)
  /-- The call `nmap.NewScanner` with the two option values. -/
  | newScanner (target ports : String)
  /-- The call `scanner.Progress(progressChannel).Run()`. -/
  | scannerRun
  deriving DecidableEq, Repr

/-- Modelled from the spec: the declaration of `nmap.Scanner` is missing. A
constructed scanner is given by what its run method does (section 6): the
values it sends to the progress sink, and the result, warnings and error it
returns (`err = none` is Go `nil`; an error is given by its message). -/
structure Scanner where
  progress : List Float32
  result : Run
  warnings : List String
  err : Option String

/-- How a call ends: by returning or by a run-time panic. -/
inductive Exit where
  | returned
  | panicked
  deriving DecidableEq, Repr

/-- A finished call: the events it caused, in order, and how it ended. -/
structure Exec where
  trace : List Event
  exit : Exit

/-- The function `updateResult`: appends the text to the result widget. -/
def updateResult (trace : List Event) (text : String) : List Event :=
  trace ++ [Event.outputAppend text]

/-- The statements of `runNmapScan` after the `defer`. `NewScanner` is the scan
engine's constructor: it yields a scanner or an error message. The goroutine
that drains the progress channel is never joined; it is placed here during
the scanner's run, one `SetValue` per value sent, which is the schedule in
which it keeps up with the scanner. The other schedules, in which a
`SetValue` comes later or not at all, are the traces given by `Observed`. -/
def scanBody (NewScanner : String → String → Except String Scanner) (targetIP ports : String) :
    Exec :=
  let trace := updateResult [] ("\nTarget: " ++ targetIP ++ ", Ports: " ++ ports)
  let trace := updateResult trace "This may take a moment..."
  let trace := trace ++ [Event.newScanner targetIP ports]
  match NewScanner targetIP ports with
  | Except.error err =>
    { trace := updateResult trace ("\nERROR: Failed to create nmap scanner: " ++ err),
      exit := Exit.returned }
  | Except.ok scanner =>
    let trace := trace ++ [Event.scannerRun]
    let trace := trace ++ scanner.progress.map (fun p => Event.barSetValue p 100)
    let trace :=
      if scanner.warnings.length > 0 then
        updateResult trace
          ("\nWARNINGS: Scan finished with warnings: " ++ fmtStrings scanner.warnings)
      else trace
    match scanner.err with
    | some err =>
      { trace := updateResult trace ("\nERROR: Unable to run nmap scan: " ++ err),
        exit := Exit.returned }
    | none =>
      match formatResults scanner.result with
      | none => { trace := trace, exit := Exit.panicked }
      | some text => { trace := updateResult trace text, exit := Exit.returned }

/-- The function `runNmapScan`: its body, then the deferred function, which
runs when the body returns and also when it panics. -/
def runNmapScan (NewScanner : String → String → Except String Scanner)
    (targetIP ports : String) : Exec :=
  let body := scanBody NewScanner targetIP ports
  { trace := body.trace ++ [Event.buttonEnable, Event.barHide], exit := body.exit }

/-- The callback of the scan button in `main`, followed by the scan it starts
with `go runNmapScan(ipEntry.Text, portsEntry.Text)`. -/
def startScan (NewScanner : String → String → Except String Scanner)
    (ipText portsText : String) : Exec :=
  let scan := runNmapScan NewScanner ipText portsText
  { trace := [Event.buttonDisable, Event.barSetValue (Float32.finite false 0 0) 1, Event.barShow,
      Event.outputSetText "Starting Nmap scan..."] ++ scan.trace,
    exit := scan.exit }

/-- The texts appended to the result widget, in order: the log. -/
def logOf : List Event → List String
  | [] => []
  | Event.outputAppend text :: rest => text :: logOf rest
  | _ :: rest => logOf rest

/-- The state of the three widgets. -/
structure Widgets where
  buttonEnabled : Bool
  barVisible : Bool
  barValue : Float32 × Nat
  text : String
  deriving DecidableEq, Repr

/-- The effect of one call on the widgets. -/
def Widgets.step (w : Widgets) : Event → Widgets
  | Event.buttonDisable => { w with buttonEnabled := false }
  | Event.buttonEnable => { w with buttonEnabled := true }
  | Event.barShow => { w with barVisible := true }
  | Event.barHide => { w with barVisible := false }
  | Event.barSetValue value divisor => { w with barValue := (value, divisor) }
  | Event.outputSetText text => { w with text := text }
  | Event.outputAppend text => { w with text := w.text ++ text }
  | Event.newScanner _ _ => w
  | Event.scannerRun => w

/-- The widgets after a sequence of calls. -/
def Widgets.replay (w : Widgets) (trace : List Event) : Widgets :=
  trace.foldl Widgets.step w

/-- The widgets as `main` sets them up: button enabled, progress bar hidden,
no text. -/
def initialWidgets : Widgets :=
  { buttonEnabled := true, barVisible := false, barValue := (Float32.finite false 0 0, 1),
    text := "" }

/-- Idle: the scan button is enabled and the progress bar is hidden. -/
def Widgets.idle (w : Widgets) : Prop := w.buttonEnabled = true ∧ w.barVisible = false

instance (w : Widgets) : Decidable w.idle := by unfold Widgets.idle; infer_instance

/-! ## The report as the specification describes it -/

/-- Concatenation of a sequence of texts, in order. -/
def concatAll : List String → String
  | [] => ""
  | s :: rest => s ++ concatAll rest

/-- The text of a port line, without indentation and line end. -/
def portLine (p : Port) : String :=
  "Port " ++ fmtInt p.ID ++ "/" ++ p.Protocol ++ " - State: " ++ p.State.State
    ++ ", Service: " ++ p.Service.Name ++ ", Version: " ++ p.Service.Product

/-- The first address of a host (empty text when there is none). -/
def firstAddr (h : Host) : String :=
  match h.Addresses with
  | [] => ""
  | a :: _ => a.Addr

/-- The first hostname of a host (empty text when there is none). -/
def firstName (h : Host) : String :=
  match h.Hostnames with
  | [] => ""
  | n :: _ => n.Name

/-- The port lines of a host, one per port, in the order of the ports. -/
def portLines (ports : List Port) : String :=
  concatAll (ports.map (fun p => "    " ++ portLine p ++ "\n"))

/-- The ports part of a host section. -/
def portsPart (ports : List Port) : String :=
  match ports with
  | [] => "  No open ports found.\n"
  | _ :: _ => "  Open Ports:\n" ++ portLines ports

/-- One host section: host line, status line, ports part, blank line. -/
def hostSection (h : Host) : String :=
  "Host: " ++ firstAddr h ++ " (" ++ firstName h ++ ")\n"
    ++ ("  Status: " ++ h.Status.State ++ "\n")
    ++ portsPart h.Ports
    ++ "\n"

/-- The banner that opens the report. -/
def banner : String := "\n\n--- Nmap Scan Complete ---\n"

/-- The header line for a host count and a rendered elapsed time. -/
def headerLine (hosts : Nat) (elapsed : String) : String :=
  "Scan finished: " ++ fmtInt hosts ++ " hosts up, in " ++ elapsed ++ " seconds."

/-- The whole report: banner, header line, blank line, host sections. -/
def report (result : Run) : String :=
  banner ++ (headerLine result.Hosts.length (fmtFloat2 result.Stats.Finished.Elapsed) ++ "\n\n")
    ++ concatAll (result.Hosts.map hostSection)

/-- Every host has at least one address and at least one hostname. -/
def WellFormed (result : Run) : Prop :=
  ∀ h ∈ result.Hosts, h.Addresses ≠ [] ∧ h.Hostnames ≠ []

/-- Whether `pat` occurs in `text` as a contiguous piece. -/
def containsText (pat text : String) : Bool :=
  text.toList.tails.any (fun s => pat.toList.isPrefixOf s)

/-- Whether `text` starts with `pat`. -/
def startsWith (pat text : String) : Bool := pat.toList.isPrefixOf text.toList

/-- Whether `text` has a point directly followed by two decimal digits. -/
def pointWithTwoDigits (text : String) : Bool :=
  text.toList.tails.any (fun s =>
    match s with
    | '.' :: d1 :: d2 :: _ => d1.isDigit && d2.isDigit
    | _ => false)

/-! ## Concrete scan results -/

/-- The host of scenario B: 127.0.0.1 / localhost, up, port 80 tcp open http
nginx. -/
def webHost : Host :=
  Host.mk [Address.mk "127.0.0.1"] [Hostname.mk "localhost"] (Status.mk "up")
    [Port.mk 80 "tcp" (State.mk "open") (Service.mk "http" "nginx")]

/-- Scenario B: the one host `webHost`; 1.25 s. -/
def scenarioB : Run := Run.mk [webHost] (Stats.mk (Finished.mk (Float32.finite false 5 (-2))))

/-- A host with an address, a hostname and no ports. -/
def quietHost : Host :=
  Host.mk [Address.mk "10.0.0.7"] [Hostname.mk "printer"] (Status.mk "up") []

/-- A host with an address and no hostname. -/
def namelessHost : Host :=
  Host.mk [Address.mk "10.0.0.1"] [] (Status.mk "up") []

/-- Two hosts, the second without ports; 0.125 s. -/
def twoHosts : Run :=
  Run.mk [Host.mk [Address.mk "10.0.0.9", Address.mk "fe80::9"] [Hostname.mk "zeta"] (Status.mk "up")
      [Port.mk 443 "tcp" (State.mk "open") (Service.mk "https" ""),
       Port.mk 22 "tcp" (State.mk "filtered") (Service.mk "ssh" "OpenSSH")],
    quietHost]
    (Stats.mk (Finished.mk (Float32.finite false 1 (-3))))

/-- No hosts, elapsed time NaN. -/
def nanRun : Run := Run.mk [] (Stats.mk (Finished.mk Float32.nan))

/-- No hosts, elapsed time 0. -/
def emptyRun : Run := Run.mk [] (Stats.mk (Finished.mk (Float32.finite false 0 0)))

/-! ## The log as the specification describes it -/

/-- The log entry for the warnings of a run: none when there are no warnings. -/
def warningEntries (scanner : Scanner) : List String :=
  if scanner.warnings = [] then []
  else ["\nWARNINGS: Scan finished with warnings: " ++ fmtStrings scanner.warnings]

/-- The log entry that ends a run: the failure text when the run returned an
error, else the report when `formatResults` returns one. -/
def terminalEntries (scanner : Scanner) : List String :=
  match scanner.err with
  | some err => ["\nERROR: Unable to run nmap scan: " ++ err]
  | none =>
    match formatResults scanner.result with
    | some text => [text]
    | none => []

/-- An entry that opens a new line with the tag "ERROR:". -/
def isErrorEntry (entry : String) : Bool := startsWith "\nERROR:" entry

/-- An entry that opens a new line with the tag "WARNINGS:". -/
def isWarningsEntry (entry : String) : Bool := startsWith "\nWARNINGS:" entry

/-- An entry that opens with the banner of the report. -/
def isReportEntry (entry : String) : Bool := startsWith "\n\n--- Nmap Scan Complete ---\n" entry

/-- A terminal notification: a failure text or a report. -/
def isTerminalEntry (entry : String) : Bool := isErrorEntry entry || isReportEntry entry

/-- An engine whose constructor fails with "bad port spec". -/
def badPortEngine : String → String → Except String Scanner :=
  fun _ _ => Except.error "bad port spec"

/-- An engine whose run succeeds on scenario B with one warning, after two
progress values. -/
def skewEngine : String → String → Except String Scanner :=
  fun _ _ => Except.ok
    { progress := [Float32.finite false 25 0, Float32.finite false 100 0],
      result := scenarioB, warnings := ["clock skew detected"], err := none }

/-- An engine whose run fails with "nmap not found" after one warning. -/
def failingEngine : String → String → Except String Scanner :=
  fun _ _ => Except.ok
    { progress := [], result := emptyRun, warnings := ["no route"], err := some "nmap not found" }

/-- An engine whose run succeeds with a host that has no hostname. -/
def namelessEngine : String → String → Except String Scanner :=
  fun _ _ => Except.ok
    { progress := [], result := Run.mk [namelessHost] emptyRun.Stats, warnings := [],
      err := none }

/-- An event that leaves the scan button and the visibility of the progress
bar alone. -/
def Event.quiet : Event → Bool
  | Event.buttonDisable => false
  | Event.buttonEnable => false
  | Event.barShow => false
  | Event.barHide => false
  | _ => true

/-- Whether the call is a `progressBar.SetValue`. -/
def Event.isSetValue : Event → Bool
  | Event.barSetValue _ _ => true
  | _ => false

/-- Whether the call is one of the scan goroutine itself, not of the goroutine
that drains the progress channel. -/
def Event.own (e : Event) : Bool := !e.isSetValue

/-- The traces a scan can show, given the trace in which the draining
goroutine keeps up: the calls of the scan goroutine are the same, in program
order; the `SetValue` calls are an initial part of those sent, in the order
sent, placed anywhere after the run is invoked (also after the completion
calls); none precedes the call of the scanner's run. -/
def Observed (trace observed : List Event) : Prop :=
  observed.filter Event.own = trace.filter Event.own
  ∧ observed.filter Event.isSetValue <+: trace.filter Event.isSetValue
  ∧ (observed.takeWhile (fun e => decide (e ≠ Event.scannerRun))).all Event.own = true

instance (trace observed : List Event) : Decidable (Observed trace observed) := by
  unfold Observed; infer_instance

/-- A trace of the scan with `skewEngine` in which the second progress value
reaches the progress bar only after the completion calls. -/
def lateObservation : List Event :=
  [Event.outputAppend "\nTarget: localhost, Ports: 80",
   Event.outputAppend "This may take a moment...",
   Event.newScanner "localhost" "80",
   Event.scannerRun,
   Event.barSetValue (Float32.finite false 25 0) 100,
   Event.outputAppend "\nWARNINGS: Scan finished with warnings: [clock skew detected]",
   Event.outputAppend "\n\n--- Nmap Scan Complete ---\nScan finished: 1 hosts up, in 1.25 seconds.\n\nHost: 127.0.0.1 (localhost)\n  Status: up\n  Open Ports:\n    Port 80/tcp - State: open, Service: http, Version: nginx\n\n",
   Event.buttonEnable,
   Event.barHide,
   Event.barSetValue (Float32.finite false 100 0) 100]

/-! ## Lemmas on the loops of `formatResults` -/

theorem concatAll_append (xs ys : List String) :
    concatAll (xs ++ ys) = concatAll xs ++ concatAll ys := by
  induction xs with
  | nil => simp [concatAll]
  | cons x xs ih => simp [concatAll, ih, String.append_assoc]

theorem concatAll_split {α : Type} (f : α → String) (x : α) (xs : List α) (hx : x ∈ xs) :
    ∃ pre post, concatAll (xs.map f) = pre ++ f x ++ post := by
  obtain ⟨l, r, rfl⟩ := List.append_of_mem hx
  refine ⟨concatAll (l.map f), concatAll (r.map f), ?_⟩
  simp [concatAll_append, concatAll, String.append_assoc]

theorem writtenLine_eq (p : Port) :
    "    Port " ++ fmtInt p.ID ++ "/" ++ p.Protocol ++ " - State: " ++ p.State.State
      ++ ", Service: " ++ p.Service.Name ++ ", Version: " ++ p.Service.Product ++ "\n"
      = "    " ++ portLine p ++ "\n" := by
  have h : "    Port " = "    " ++ "Port " := by decide
  rw [h]
  simp only [portLine, String.append_assoc]

theorem writePorts_eq (builder : String) (ports : List Port) :
    writePorts builder ports = builder ++ portLines ports := by
  induction ports generalizing builder with
  | nil => simp [writePorts, portLines, concatAll]
  | cons p rest ih =>
    simp only [writePorts]
    rw [ih, writtenLine_eq]
    simp only [portLines, List.map_cons, concatAll, String.append_assoc]

theorem writeHost_eq (builder : String) (host : Host) (address : Address) (hostname : Hostname)
    (as : List Address) (ns : List Hostname)
    (ha : host.Addresses = address :: as) (hn : host.Hostnames = hostname :: ns) :
    writeHost builder host = some (builder ++ hostSection host) := by
  unfold writeHost
  simp only [ha, hn, List.getElem?_cons_zero]
  cases hp : host.Ports with
  | nil =>
    simp [hostSection, firstAddr, firstName, portsPart, ha, hn, hp, String.append_assoc]
  | cons p rest =>
    simp only [hostSection, firstAddr, firstName, portsPart, ha, hn, hp, writePorts_eq,
      List.length_cons, gt_iff_lt, Nat.zero_lt_succ, if_true]
    congr 1
    apply String.ext
    simp [String.data_append]

theorem writeHost_isSome (builder : String) (host : Host) :
    (writeHost builder host).isSome = true ↔ host.Addresses ≠ [] ∧ host.Hostnames ≠ [] := by
  unfold writeHost
  cases ha : host.Addresses with
  | nil => simp
  | cons a as =>
    cases hn : host.Hostnames with
    | nil => simp
    | cons n ns => simp

theorem writeHosts_eq (builder : String) (hosts : List Host)
    (hwf : ∀ h ∈ hosts, h.Addresses ≠ [] ∧ h.Hostnames ≠ []) :
    writeHosts builder hosts = some (builder ++ concatAll (hosts.map hostSection)) := by
  induction hosts generalizing builder with
  | nil => simp [writeHosts, concatAll]
  | cons h rest ih =>
    obtain ⟨ha, hn⟩ := hwf h (List.mem_cons_self _ _)
    obtain ⟨a, as, ha⟩ := List.exists_cons_of_ne_nil ha
    obtain ⟨n, ns, hn⟩ := List.exists_cons_of_ne_nil hn
    simp only [writeHosts, writeHost_eq builder h a n as ns ha hn]
    rw [ih _ (fun x hx => hwf x (List.mem_cons_of_mem _ hx))]
    simp only [List.map_cons, concatAll, String.append_assoc]

theorem writeHosts_isSome (builder : String) (hosts : List Host) :
    (writeHosts builder hosts).isSome = true ↔
      ∀ h ∈ hosts, h.Addresses ≠ [] ∧ h.Hostnames ≠ [] := by
  induction hosts generalizing builder with
  | nil => simp [writeHosts]
  | cons h rest ih =>
    simp only [writeHosts, List.mem_cons, forall_eq_or_imp]
    cases hw : writeHost builder h with
    | none =>
      have hs := writeHost_isSome builder h
      rw [hw] at hs
      simp only [Option.isSome_none, Bool.false_eq_true, false_iff] at hs
      simp only [Option.isSome_none, Bool.false_eq_true, false_iff]
      exact fun hc => hs hc.1
    | some b =>
      have hs := writeHost_isSome builder h
      rw [hw] at hs
      simp only [Option.isSome_some, true_iff] at hs
      rw [ih b]
      exact ⟨fun hr => ⟨hs, hr⟩, fun hc => hc.2⟩

theorem formatResults_eq_report (result : Run) (hwf : WellFormed result) :
    formatResults result = some (report result) := by
  unfold formatResults
  simp only [writeHosts_eq _ result.Hosts hwf, report, banner, headerLine]
  congr 1
  apply String.ext
  simp [String.data_append]

theorem formatResults_isSome (result : Run) :
    (formatResults result).isSome = true ↔ WellFormed result := by
  unfold formatResults WellFormed
  exact writeHosts_isSome _ _

theorem wellFormed_of_formatResults (result : Run) (text : String)
    (h : formatResults result = some text) : WellFormed result :=
  (formatResults_isSome result).1 (by rw [h]; rfl)


theorem portLines_line (p : Port) (ports : List Port) (hp : p ∈ ports) (lead : String) :
    ∃ pre post, lead ++ "\n" ++ portLines ports = pre ++ ("\n    " ++ portLine p ++ "\n") ++ post := by
  induction ports generalizing lead with
  | nil => cases hp
  | cons q rest ih =>
    rcases List.mem_cons.1 hp with h | h
    · subst h
      refine ⟨lead, portLines rest, ?_⟩
      simp only [portLines, List.map_cons, concatAll]
      apply String.ext
      simp [String.data_append]
    · obtain ⟨pre, post, hpp⟩ := ih h (lead ++ "\n" ++ "    " ++ portLine q)
      refine ⟨pre, post, ?_⟩
      rw [← hpp]
      simp only [portLines, List.map_cons, concatAll]
      apply String.ext
      simp [String.data_append]

theorem roundHalfEven_nearest (num den : Nat) (hden : 0 < den) :
    2 * (roundHalfEven num den * den) ≤ 2 * num + den
    ∧ 2 * num ≤ 2 * (roundHalfEven num den * den) + den := by
  have hdm := Nat.div_add_mod num den
  have hlt := Nat.mod_lt num hden
  have hmul : (num / den + 1) * den = den * (num / den) + den := by ring
  have hmul2 : num / den * den = den * (num / den) := by ring
  unfold roundHalfEven
  simp only
  split
  · rename_i hc
    rw [hmul]
    rcases hc with hc | hc <;> omega
  · rename_i hc
    rw [hmul2]
    have h1 : ¬ den < 2 * (num % den) := fun h => hc (Or.inl h)
    omega

theorem hundredths_zero (exp : Int) : hundredths 0 exp = 0 := by
  cases exp with
  | ofNat k => simp [hundredths]
  | negSucc k =>
    have hpos : 0 < 2 ^ (k + 1) := Nat.pos_pow_of_pos _ (by decide)
    simp [hundredths, roundHalfEven]

/-! ## Lemmas on the events of a scan -/

theorem logOf_append (a b : List Event) : logOf (a ++ b) = logOf a ++ logOf b := by
  induction a with
  | nil => rfl
  | cons e a ih => cases e <;> simp [logOf, ih]

theorem logOf_progress (ps : List Float32) :
    logOf (ps.map (fun p => Event.barSetValue p 100)) = [] := by
  induction ps with
  | nil => rfl
  | cons p ps ih => simp [logOf, ih]

theorem logOf_appends (texts : List String) :
    logOf (texts.map Event.outputAppend) = texts := by
  induction texts with
  | nil => rfl
  | cons t ts ih => simp [logOf, ih]

theorem scanBody_error (NewScanner : String → String → Except String Scanner)
    (targetIP ports d : String) (hfail : NewScanner targetIP ports = Except.error d) :
    (scanBody NewScanner targetIP ports).trace
      = [Event.outputAppend ("\nTarget: " ++ targetIP ++ ", Ports: " ++ ports),
         Event.outputAppend "This may take a moment...",
         Event.newScanner targetIP ports,
         Event.outputAppend ("\nERROR: Failed to create nmap scanner: " ++ d)]
    ∧ (scanBody NewScanner targetIP ports).exit = Exit.returned := by
  unfold scanBody
  simp [hfail, updateResult]

theorem scanBody_ok (NewScanner : String → String → Except String Scanner)
    (targetIP ports : String) (scanner : Scanner)
    (hok : NewScanner targetIP ports = Except.ok scanner) :
    (scanBody NewScanner targetIP ports).trace
      = [Event.outputAppend ("\nTarget: " ++ targetIP ++ ", Ports: " ++ ports),
         Event.outputAppend "This may take a moment...",
         Event.newScanner targetIP ports,
         Event.scannerRun]
        ++ scanner.progress.map (fun p => Event.barSetValue p 100)
        ++ (warningEntries scanner).map Event.outputAppend
        ++ (terminalEntries scanner).map Event.outputAppend
    ∧ (scanBody NewScanner targetIP ports).exit
      = (if scanner.err = none ∧ formatResults scanner.result = none then Exit.panicked
         else Exit.returned) := by
  unfold scanBody
  simp only [hok, updateResult]
  cases hw : scanner.warnings with
  | nil =>
    cases he : scanner.err with
    | some e => simp [warningEntries, terminalEntries, hw, he]
    | none =>
      cases hf : formatResults scanner.result with
      | none => simp [warningEntries, terminalEntries, hw, he, hf]
      | some text => simp [warningEntries, terminalEntries, hw, he, hf]
  | cons w ws =>
    cases he : scanner.err with
    | some e => simp [warningEntries, terminalEntries, hw, he]
    | none =>
      cases hf : formatResults scanner.result with
      | none => simp [warningEntries, terminalEntries, hw, he, hf]
      | some text => simp [warningEntries, terminalEntries, hw, he, hf]

theorem log_error (NewScanner : String → String → Except String Scanner)
    (targetIP ports d : String) (hfail : NewScanner targetIP ports = Except.error d) :
    logOf (runNmapScan NewScanner targetIP ports).trace
      = ["\nTarget: " ++ targetIP ++ ", Ports: " ++ ports, "This may take a moment...",
         "\nERROR: Failed to create nmap scanner: " ++ d] := by
  simp [runNmapScan, (scanBody_error NewScanner targetIP ports d hfail).1, logOf]

theorem log_ok (NewScanner : String → String → Except String Scanner)
    (targetIP ports : String) (scanner : Scanner)
    (hok : NewScanner targetIP ports = Except.ok scanner) :
    logOf (runNmapScan NewScanner targetIP ports).trace
      = ["\nTarget: " ++ targetIP ++ ", Ports: " ++ ports, "This may take a moment..."]
        ++ warningEntries scanner ++ terminalEntries scanner := by
  simp [runNmapScan, (scanBody_ok NewScanner targetIP ports scanner hok).1, logOf,
    logOf_append, logOf_progress, logOf_appends]

theorem report_entry (result : Run) (text : String) (h : formatResults result = some text) :
    isReportEntry text = true ∧ isErrorEntry text = false ∧ isWarningsEntry text = false := by
  have hwf := wellFormed_of_formatResults result text h
  rw [formatResults_eq_report result hwf] at h
  rw [← Option.some.inj h]
  simp [isReportEntry, isErrorEntry, isWarningsEntry, startsWith, report, banner,
    String.data_append, List.isPrefixOf_cons₂]

theorem start_entry (targetIP ports : String) :
    isReportEntry ("\nTarget: " ++ targetIP ++ ", Ports: " ++ ports) = false
    ∧ isErrorEntry ("\nTarget: " ++ targetIP ++ ", Ports: " ++ ports) = false
    ∧ isWarningsEntry ("\nTarget: " ++ targetIP ++ ", Ports: " ++ ports) = false := by
  simp [isReportEntry, isErrorEntry, isWarningsEntry, startsWith, String.data_append,
    List.isPrefixOf_cons₂]

theorem created_error_entry (d : String) :
    isReportEntry ("\nERROR: Failed to create nmap scanner: " ++ d) = false
    ∧ isErrorEntry ("\nERROR: Failed to create nmap scanner: " ++ d) = true
    ∧ isWarningsEntry ("\nERROR: Failed to create nmap scanner: " ++ d) = false := by
  simp [isReportEntry, isErrorEntry, isWarningsEntry, startsWith, String.data_append,
    List.isPrefixOf_cons₂]

theorem run_error_entry (d : String) :
    isReportEntry ("\nERROR: Unable to run nmap scan: " ++ d) = false
    ∧ isErrorEntry ("\nERROR: Unable to run nmap scan: " ++ d) = true
    ∧ isWarningsEntry ("\nERROR: Unable to run nmap scan: " ++ d) = false := by
  simp [isReportEntry, isErrorEntry, isWarningsEntry, startsWith, String.data_append,
    List.isPrefixOf_cons₂]

theorem warnings_entry (ws : String) :
    isReportEntry ("\nWARNINGS: Scan finished with warnings: " ++ ws) = false
    ∧ isErrorEntry ("\nWARNINGS: Scan finished with warnings: " ++ ws) = false
    ∧ isWarningsEntry ("\nWARNINGS: Scan finished with warnings: " ++ ws) = true := by
  simp [isReportEntry, isErrorEntry, isWarningsEntry, startsWith, String.data_append,
    List.isPrefixOf_cons₂]

theorem wait_entry :
    isReportEntry "This may take a moment..." = false
    ∧ isErrorEntry "This may take a moment..." = false
    ∧ isWarningsEntry "This may take a moment..." = false := by
  decide

theorem scanBody_quiet (NewScanner : String → String → Except String Scanner)
    (targetIP ports : String) :
    ∀ e ∈ (scanBody NewScanner targetIP ports).trace, e.quiet = true := by
  cases hn : NewScanner targetIP ports with
  | error d =>
    rw [(scanBody_error NewScanner targetIP ports d hn).1]
    simp [Event.quiet]
  | ok scanner =>
    rw [(scanBody_ok NewScanner targetIP ports scanner hn).1]
    intro e he
    simp only [List.mem_append, List.mem_map, List.mem_cons, List.mem_singleton] at he
    rcases he with ((((h | h | h | h | h) | ⟨p, _, h⟩) | ⟨t, _, h⟩) | ⟨t, _, h⟩)
    all_goals first | (subst h; rfl) | cases h

theorem replay_append (w : Widgets) (a b : List Event) :
    w.replay (a ++ b) = (w.replay a).replay b := by
  simp [Widgets.replay, List.foldl_append]

theorem replay_quiet (trace : List Event) (w : Widgets) (hq : ∀ e ∈ trace, e.quiet = true) :
    (w.replay trace).buttonEnabled = w.buttonEnabled
    ∧ (w.replay trace).barVisible = w.barVisible := by
  induction trace generalizing w with
  | nil => exact ⟨rfl, rfl⟩
  | cons e rest ih =>
    have he := hq e (List.mem_cons_self _ _)
    have hr := ih (w.step e) (fun x hx => hq x (List.mem_cons_of_mem _ hx))
    have hs : (w.step e).buttonEnabled = w.buttonEnabled
        ∧ (w.step e).barVisible = w.barVisible := by
      cases e <;> simp [Widgets.step, Event.quiet] at he ⊢
    simp only [Widgets.replay, List.foldl_cons] at hr ⊢
    exact ⟨hr.1.trans hs.1, hr.2.trans hs.2⟩

theorem not_mem_of_quiet (trace : List Event) (hq : ∀ e ∈ trace, e.quiet = true) :
    Event.buttonEnable ∉ trace ∧ Event.barHide ∉ trace := by
  constructor
  · intro h
    have := hq _ h
    simp [Event.quiet] at this
  · intro h
    have := hq _ h
    simp [Event.quiet] at this

/-! ## The report -/

/-- Evaluation for C1: on a scan result whose only host has an address and an
empty hostnames sequence, `formatResults` panics instead of producing a
report; a scan that receives this result panics after the two opening log
entries and logs no report. -/
theorem formatResults_nameless_panics :
    formatResults (Run.mk [namelessHost] emptyRun.Stats) = none
    ∧ (runNmapScan namelessEngine "10.0.0.1" "22").exit = Exit.panicked
    ∧ logOf (runNmapScan namelessEngine "10.0.0.1" "22").trace
      = ["\nTarget: 10.0.0.1, Ports: 22", "This may take a moment..."] := by
  decide

/-- C2: when every host has an address and a hostname, the report is the
banner, the header line and a blank line, followed by one host section per
host in the order of `result.Hosts`; with no hosts and elapsed time 0 it is
the banner and the header line with "0 hosts up, in 0.00 seconds." and
nothing else. -/
theorem formatResults_sections (result : Run) (exp : Int) (hwf : WellFormed result) :
    formatResults result
      = some ("\n\n--- Nmap Scan Complete ---\n"
          ++ ("Scan finished: " ++ fmtInt result.Hosts.length ++ " hosts up, in "
            ++ fmtFloat2 result.Stats.Finished.Elapsed ++ " seconds.\n\n")
          ++ concatAll (result.Hosts.map (fun h =>
              "Host: " ++ firstAddr h ++ " (" ++ firstName h ++ ")\n"
                ++ ("  Status: " ++ h.Status.State ++ "\n")
                ++ portsPart h.Ports
                ++ "\n")))
    ∧ formatResults (Run.mk [] (Stats.mk (Finished.mk (Float32.finite false 0 exp))))
      = some ("\n\n--- Nmap Scan Complete ---\nScan finished: "
          ++ "0 hosts up, in 0.00 seconds." ++ "\n\n") := by
  constructor
  · rw [formatResults_eq_report result hwf]
    have hs : hostSection = (fun h =>
        "Host: " ++ firstAddr h ++ " (" ++ firstName h ++ ")\n"
          ++ ("  Status: " ++ h.Status.State ++ "\n")
          ++ portsPart h.Ports
          ++ "\n") := rfl
    simp only [report, banner, headerLine, hs]
    congr 1
    apply String.ext
    simp [String.data_append]
  · simp only [formatResults, writeHosts, fmtFloat2, hundredths_zero]
    decide

/-- Witness for C2 on two hosts. -/
theorem formatResults_sections_witness :
    WellFormed twoHosts ∧
    (formatResults twoHosts
      = some ("\n\n--- Nmap Scan Complete ---\n"
          ++ ("Scan finished: " ++ fmtInt twoHosts.Hosts.length ++ " hosts up, in "
            ++ fmtFloat2 twoHosts.Stats.Finished.Elapsed ++ " seconds.\n\n")
          ++ concatAll (twoHosts.Hosts.map (fun h =>
              "Host: " ++ firstAddr h ++ " (" ++ firstName h ++ ")\n"
                ++ ("  Status: " ++ h.Status.State ++ "\n")
                ++ portsPart h.Ports
                ++ "\n")))
    ∧ formatResults (Run.mk [] (Stats.mk (Finished.mk (Float32.finite false 0 0))))
      = some ("\n\n--- Nmap Scan Complete ---\nScan finished: "
          ++ "0 hosts up, in 0.00 seconds." ++ "\n\n")) :=
  ⟨by unfold WellFormed; decide,
   formatResults_sections twoHosts 0 (by unfold WellFormed; decide)⟩

/-- Counterexample for C3: with no hosts and an elapsed time that is NaN the
header line reads "in NaN seconds."; the report has no point followed by two
digits anywhere. -/
theorem formatResults_header_nan :
    formatResults nanRun
      = some "\n\n--- Nmap Scan Complete ---\nScan finished: 0 hosts up, in NaN seconds.\n\n"
    ∧ pointWithTwoDigits
        "\n\n--- Nmap Scan Complete ---\nScan finished: 0 hosts up, in NaN seconds.\n\n" = false := by
  decide

/-- C3, amended: when `formatResults` returns and the elapsed time is finite,
the line after the banner is "Scan finished: n hosts up, in e seconds." where
n is the decimal rendering of the number of hosts and e is the elapsed time
in hundredths (rounded, ties to even): a sign for a negative value, the
integer part, a point and exactly two digits. -/
theorem formatResults_header (result : Run) (text : String) (neg : Bool) (mant : Nat)
    (exp : Int) (hret : formatResults result = some text)
    (hfin : result.Stats.Finished.Elapsed = Float32.finite neg mant exp) :
    ∃ (intPart d1 d2 : Nat) (rest : String),
      d1 < 10 ∧ d2 < 10 ∧ intPart * 100 + d1 * 10 + d2 = hundredths mant exp ∧
      text = "\n\n--- Nmap Scan Complete ---\n"
        ++ ("Scan finished: " ++ fmtInt result.Hosts.length ++ " hosts up, in "
          ++ ((if neg then "-" else "") ++ fmtInt intPart ++ "." ++ digitStr d1 ++ digitStr d2)
          ++ " seconds.")
        ++ "\n\n" ++ rest := by
  have hwf := wellFormed_of_formatResults result text hret
  rw [formatResults_eq_report result hwf] at hret
  refine ⟨hundredths mant exp / 100, hundredths mant exp % 100 / 10, hundredths mant exp % 10,
    concatAll (result.Hosts.map hostSection), by omega, by omega, by omega, ?_⟩
  rw [← Option.some.inj hret]
  simp only [report, banner, headerLine, hfin, fmtFloat2]
  apply String.ext
  simp [String.data_append]

/-- Witness for C3, amended, on scenario B (1.25 s). -/
theorem formatResults_header_witness :
    pointWithTwoDigits
      "\n\n--- Nmap Scan Complete ---\nScan finished: 1 hosts up, in 1.25 seconds.\n\nHost: 127.0.0.1 (localhost)\n  Status: up\n  Open Ports:\n    Port 80/tcp - State: open, Service: http, Version: nginx\n\n" = true ∧
    ∃ (intPart d1 d2 : Nat) (rest : String),
      d1 < 10 ∧ d2 < 10 ∧ intPart * 100 + d1 * 10 + d2 = hundredths 5 (-2) ∧
      "\n\n--- Nmap Scan Complete ---\nScan finished: 1 hosts up, in 1.25 seconds.\n\nHost: 127.0.0.1 (localhost)\n  Status: up\n  Open Ports:\n    Port 80/tcp - State: open, Service: http, Version: nginx\n\n"
        = "\n\n--- Nmap Scan Complete ---\n"
        ++ ("Scan finished: " ++ fmtInt scenarioB.Hosts.length ++ " hosts up, in "
          ++ ((if false then "-" else "") ++ fmtInt intPart ++ "." ++ digitStr d1 ++ digitStr d2)
          ++ " seconds.")
        ++ "\n\n" ++ rest :=
  ⟨by decide, formatResults_header scenarioB
    "\n\n--- Nmap Scan Complete ---\nScan finished: 1 hosts up, in 1.25 seconds.\n\nHost: 127.0.0.1 (localhost)\n  Status: up\n  Open Ports:\n    Port 80/tcp - State: open, Service: http, Version: nginx\n\n"
    false 5 (-2) (by decide) rfl⟩

/-- C4: when every host has an address and a hostname, the report contains,
for every port of every host, the line made of the indentation and
"Port ID/protocol - State: state, Service: name, Version: product", and the
section of a host with ports holds its port lines one per port, in the order
of `host.Ports`, between the "Open Ports" heading and the closing blank
line. -/
theorem formatResults_port_lines (result : Run) (hwf : WellFormed result) :
    ∃ text, formatResults result = some text ∧
      (∀ h ∈ result.Hosts, ∀ p ∈ h.Ports, ∃ pre post,
        text = pre ++ ("\n    " ++ ("Port " ++ fmtInt p.ID ++ "/" ++ p.Protocol ++ " - State: "
          ++ p.State.State ++ ", Service: " ++ p.Service.Name ++ ", Version: "
          ++ p.Service.Product) ++ "\n") ++ post) ∧
      (∀ h ∈ result.Hosts, h.Ports ≠ [] → ∃ pre post,
        text = pre ++ ("Host: " ++ firstAddr h ++ " (" ++ firstName h ++ ")\n"
          ++ ("  Status: " ++ h.Status.State ++ "\n")
          ++ ("  Open Ports:\n" ++ concatAll (h.Ports.map (fun p => "    " ++ portLine p ++ "\n")))
          ++ "\n") ++ post) := by
  refine ⟨report result, formatResults_eq_report result hwf, ?_, ?_⟩
  · intro h hh p hp
    obtain ⟨pre, post, hsplit⟩ := concatAll_split hostSection h result.Hosts hh
    obtain ⟨q, rest, hq⟩ := List.exists_cons_of_ne_nil (List.ne_nil_of_mem hp)
    obtain ⟨pre2, post2, hline⟩ := portLines_line p h.Ports hp
      (banner ++ (headerLine result.Hosts.length (fmtFloat2 result.Stats.Finished.Elapsed)
        ++ "\n\n") ++ pre ++ "Host: " ++ firstAddr h ++ " (" ++ firstName h ++ ")\n"
        ++ "  Status: " ++ h.Status.State ++ "\n" ++ "  Open Ports:")
    refine ⟨pre2, post2 ++ "\n" ++ post, ?_⟩
    have hl : pre2 ++ ("\n    " ++ ("Port " ++ fmtInt p.ID ++ "/" ++ p.Protocol ++ " - State: "
          ++ p.State.State ++ ", Service: " ++ p.Service.Name ++ ", Version: "
          ++ p.Service.Product) ++ "\n") ++ (post2 ++ "\n" ++ post)
        = (pre2 ++ ("\n    " ++ portLine p ++ "\n") ++ post2) ++ "\n" ++ post := by
      simp only [portLine, String.append_assoc]
    rw [hl, ← hline]
    simp only [report, hsplit, hostSection, portsPart, hq]
    rw [← hq]
    apply String.ext
    simp [String.data_append]
  · intro h hh hne
    obtain ⟨pre, post, hsplit⟩ := concatAll_split hostSection h result.Hosts hh
    obtain ⟨q, rest, hq⟩ := List.exists_cons_of_ne_nil hne
    refine ⟨banner ++ (headerLine result.Hosts.length (fmtFloat2 result.Stats.Finished.Elapsed)
      ++ "\n\n") ++ pre, post, ?_⟩
    simp only [report, hsplit, hostSection, portsPart, hq, portLines, String.append_assoc]

/-- Witness for C4 on scenario B: the report holds the line
"Port 80/tcp - State: open, Service: http, Version: nginx". -/
theorem formatResults_port_lines_witness :
    WellFormed scenarioB ∧
    containsText "\n    Port 80/tcp - State: open, Service: http, Version: nginx\n"
      "\n\n--- Nmap Scan Complete ---\nScan finished: 1 hosts up, in 1.25 seconds.\n\nHost: 127.0.0.1 (localhost)\n  Status: up\n  Open Ports:\n    Port 80/tcp - State: open, Service: http, Version: nginx\n\n" = true ∧
    ∃ text, formatResults scenarioB = some text ∧
      (∀ h ∈ scenarioB.Hosts, ∀ p ∈ h.Ports, ∃ pre post,
        text = pre ++ ("\n    " ++ ("Port " ++ fmtInt p.ID ++ "/" ++ p.Protocol ++ " - State: "
          ++ p.State.State ++ ", Service: " ++ p.Service.Name ++ ", Version: "
          ++ p.Service.Product) ++ "\n") ++ post) ∧
      (∀ h ∈ scenarioB.Hosts, h.Ports ≠ [] → ∃ pre post,
        text = pre ++ ("Host: " ++ firstAddr h ++ " (" ++ firstName h ++ ")\n"
          ++ ("  Status: " ++ h.Status.State ++ "\n")
          ++ ("  Open Ports:\n" ++ concatAll (h.Ports.map (fun p => "    " ++ portLine p ++ "\n")))
          ++ "\n") ++ post) :=
  ⟨by unfold WellFormed; decide, by decide,
   formatResults_port_lines scenarioB (by unfold WellFormed; decide)⟩

/-- Counterexample for C5: the section of a host without ports reads
"No open ports found."; the literal text "no open ports" occurs nowhere in
the report. -/
theorem formatResults_quiet_host :
    formatResults (Run.mk [quietHost] emptyRun.Stats)
      = some "\n\n--- Nmap Scan Complete ---\nScan finished: 1 hosts up, in 0.00 seconds.\n\nHost: 10.0.0.7 (printer)\n  Status: up\n  No open ports found.\n\n"
    ∧ containsText "no open ports"
        "\n\n--- Nmap Scan Complete ---\nScan finished: 1 hosts up, in 0.00 seconds.\n\nHost: 10.0.0.7 (printer)\n  Status: up\n  No open ports found.\n\n" = false := by
  decide

/-- C5, amended: the section written for a host (one pass of the outer loop
of `formatResults`) is the host line, the status line, the ports part and a
blank line, where the ports part is the heading "  Open Ports:" followed by
the port lines when the host has ports, and the single line
"  No open ports found." when it has none. -/
theorem writeHost_ports_part (builder : String) (host : Host) (address : Address)
    (hostname : Hostname) (as : List Address) (ns : List Hostname)
    (ha : host.Addresses = address :: as) (hn : host.Hostnames = hostname :: ns) :
    writeHost builder host
      = some (builder ++ ("Host: " ++ address.Addr ++ " (" ++ hostname.Name ++ ")\n"
          ++ ("  Status: " ++ host.Status.State ++ "\n")
          ++ (if host.Ports = [] then "  No open ports found.\n"
              else "  Open Ports:\n"
                ++ concatAll (host.Ports.map (fun p => "    " ++ portLine p ++ "\n")))
          ++ "\n")) := by
  rw [writeHost_eq builder host address hostname as ns ha hn]
  cases hp : host.Ports with
  | nil => simp only [hostSection, firstAddr, firstName, portsPart, ha, hn, hp, if_true]
  | cons p rest =>
    simp only [hostSection, firstAddr, firstName, portsPart, portLines, ha, hn, hp,
      if_false, reduceCtorEq]

/-- Witness for C5, amended, on the host of scenario B. -/
theorem writeHost_ports_part_witness :
    webHost.Addresses = [Address.mk "127.0.0.1"] ∧ webHost.Hostnames = [Hostname.mk "localhost"] ∧
    writeHost "" webHost
      = some ("" ++ ("Host: " ++ "127.0.0.1" ++ " (" ++ "localhost" ++ ")\n"
          ++ ("  Status: " ++ webHost.Status.State ++ "\n")
          ++ (if webHost.Ports = [] then "  No open ports found.\n"
              else "  Open Ports:\n"
                ++ concatAll (webHost.Ports.map (fun p => "    " ++ portLine p ++ "\n")))
          ++ "\n")) :=
  ⟨rfl, rfl,
   writeHost_ports_part "" webHost (Address.mk "127.0.0.1") (Hostname.mk "localhost") [] [] rfl rfl⟩

/-- C10: `formatResults` returns a report exactly when every host has a
non-empty `Addresses` and a non-empty `Hostnames`; it returns on every result
without hosts; and replacing the ports of the hosts by any others does not
change whether it returns. -/
theorem formatResults_returns_iff (result : Run) (stats : Stats) (ports : Host → List Port) :
    ((formatResults result).isSome = true ↔
        ∀ h ∈ result.Hosts, h.Addresses ≠ [] ∧ h.Hostnames ≠ [])
    ∧ (formatResults (Run.mk [] stats)).isSome = true
    ∧ (formatResults (Run.mk
          (result.Hosts.map (fun h => Host.mk h.Addresses h.Hostnames h.Status (ports h)))
          result.Stats)).isSome = (formatResults result).isSome := by
  refine ⟨formatResults_isSome result, ?_, ?_⟩
  · rw [formatResults_isSome]
    intro h hh
    cases hh
  · rw [Bool.eq_iff_iff, formatResults_isSome, formatResults_isSome]
    simp only [WellFormed, List.mem_map, forall_exists_index, and_imp]
    constructor
    · intro hw h hh
      exact hw (Host.mk h.Addresses h.Hostnames h.Status (ports h)) h hh rfl
    · intro hw h' h hh heq
      subst heq
      exact hw h hh

/-! ## The scan -/

/-- Counterexample for C6: when construction fails with "bad port spec", the
failure text in the log is "ERROR: Failed to create nmap scanner: bad port
spec" on a new line; no log entry contains "failed to create scanner: bad
port spec". -/
theorem runNmapScan_bad_port_spec :
    logOf (runNmapScan badPortEngine "scanme" "1-").trace
      = ["\nTarget: scanme, Ports: 1-", "This may take a moment...",
         "\nERROR: Failed to create nmap scanner: bad port spec"]
    ∧ (logOf (runNmapScan badPortEngine "scanme" "1-").trace).any
        (containsText "failed to create scanner: bad port spec") = false := by
  decide

/-- C6, amended: when construction of the scanner fails with message d, the
scan logs the two opening entries and then exactly the text
"ERROR: Failed to create nmap scanner: " followed by d, on a new line, and
returns after the completion calls; the scanner's run is never invoked and
the progress bar receives no value. -/
theorem runNmapScan_construction_failure
    (NewScanner : String → String → Except String Scanner) (targetIP ports d : String)
    (hfail : NewScanner targetIP ports = Except.error d) :
    (runNmapScan NewScanner targetIP ports).trace
      = [Event.outputAppend ("\nTarget: " ++ targetIP ++ ", Ports: " ++ ports),
         Event.outputAppend "This may take a moment...",
         Event.newScanner targetIP ports,
         Event.outputAppend ("\nERROR: Failed to create nmap scanner: " ++ d),
         Event.buttonEnable, Event.barHide]
    ∧ (runNmapScan NewScanner targetIP ports).exit = Exit.returned
    ∧ Event.scannerRun ∉ (runNmapScan NewScanner targetIP ports).trace
    ∧ ∀ value divisor,
        Event.barSetValue value divisor ∉ (runNmapScan NewScanner targetIP ports).trace := by
  have h := scanBody_error NewScanner targetIP ports d hfail
  simp [runNmapScan, h.1, h.2]

/-- Witness for C6, amended, with the message "bad port spec". -/
theorem runNmapScan_construction_failure_witness :
    badPortEngine "scanme" "1-" = Except.error "bad port spec" ∧
    ((runNmapScan badPortEngine "scanme" "1-").trace
      = [Event.outputAppend ("\nTarget: " ++ "scanme" ++ ", Ports: " ++ "1-"),
         Event.outputAppend "This may take a moment...",
         Event.newScanner "scanme" "1-",
         Event.outputAppend ("\nERROR: Failed to create nmap scanner: " ++ "bad port spec"),
         Event.buttonEnable, Event.barHide]
    ∧ (runNmapScan badPortEngine "scanme" "1-").exit = Exit.returned
    ∧ Event.scannerRun ∉ (runNmapScan badPortEngine "scanme" "1-").trace
    ∧ ∀ value divisor,
        Event.barSetValue value divisor ∉ (runNmapScan badPortEngine "scanme" "1-").trace) :=
  ⟨rfl, runNmapScan_construction_failure badPortEngine "scanme" "1-" "bad port spec" rfl⟩

/-- Counterexample for C7: a run that succeeds with the warning "clock skew
detected" logs the warnings entry with a leading line break; no entry of the
log starts with "WARNINGS:". -/
theorem runNmapScan_clock_skew :
    logOf (runNmapScan skewEngine "localhost" "80").trace
      = ["\nTarget: localhost, Ports: 80", "This may take a moment...",
         "\nWARNINGS: Scan finished with warnings: [clock skew detected]",
         "\n\n--- Nmap Scan Complete ---\nScan finished: 1 hosts up, in 1.25 seconds.\n\nHost: 127.0.0.1 (localhost)\n  Status: up\n  Open Ports:\n    Port 80/tcp - State: open, Service: http, Version: nginx\n\n"]
    ∧ ((logOf (runNmapScan skewEngine "localhost" "80").trace).filter
        (startsWith "WARNINGS:")).length = 0 := by
  decide

/-- C7, amended: when the scanner is constructed, the log is the two opening
entries, then the warnings entry exactly when the warnings are non-empty,
then the terminal entry when one is logged (the failure text, or the
report); the warnings entry starts with a line break followed by
"WARNINGS:", and the number of log entries that start so is 1 when the
warnings are non-empty and 0 when they are empty. -/
theorem runNmapScan_warnings (NewScanner : String → String → Except String Scanner)
    (targetIP ports : String) (scanner : Scanner)
    (hok : NewScanner targetIP ports = Except.ok scanner) :
    logOf (runNmapScan NewScanner targetIP ports).trace
      = ["\nTarget: " ++ targetIP ++ ", Ports: " ++ ports, "This may take a moment..."]
        ++ (if scanner.warnings = [] then []
            else ["\nWARNINGS: Scan finished with warnings: " ++ fmtStrings scanner.warnings])
        ++ terminalEntries scanner
    ∧ ((logOf (runNmapScan NewScanner targetIP ports).trace).filter isWarningsEntry).length
      = (if scanner.warnings = [] then 0 else 1)
    ∧ (terminalEntries scanner).length ≤ 1
    ∧ ∀ e ∈ terminalEntries scanner, isTerminalEntry e = true ∧ isWarningsEntry e = false := by
  have hlog := log_ok NewScanner targetIP ports scanner hok
  have hterm : (terminalEntries scanner).length ≤ 1
      ∧ ∀ e ∈ terminalEntries scanner, isTerminalEntry e = true ∧ isWarningsEntry e = false := by
    unfold terminalEntries
    cases he : scanner.err with
    | some d =>
      have h := run_error_entry d
      simp [isTerminalEntry, h.2.1, h.2.2]
    | none =>
      cases hf : formatResults scanner.result with
      | none => simp
      | some text =>
        have h := report_entry scanner.result text hf
        simp [isTerminalEntry, h.1, h.2.2]
  have hfil : (terminalEntries scanner).filter isWarningsEntry = [] := by
    rw [List.filter_eq_nil_iff]
    intro e he
    simp [(hterm.2 e he).2]
  refine ⟨by rw [hlog]; rfl, ?_, hterm.1, hterm.2⟩
  rw [hlog]
  simp only [List.filter_append, hfil, List.append_nil, List.length_append]
  have h1 := start_entry targetIP ports
  have h2 := wait_entry
  unfold warningEntries
  by_cases hw : scanner.warnings = []
  · simp [hw, List.filter, h1.2.2, h2.2.2]
  · have h3 := warnings_entry (fmtStrings scanner.warnings)
    simp [hw, List.filter, h1.2.2, h2.2.2, h3.2.2]

/-- Witness for C7, amended, on a run that fails after one warning. -/
theorem runNmapScan_warnings_witness :
    logOf (runNmapScan failingEngine "localhost" "80").trace
      = ["\nTarget: localhost, Ports: 80", "This may take a moment...",
         "\nWARNINGS: Scan finished with warnings: [no route]",
         "\nERROR: Unable to run nmap scan: nmap not found"]
    ∧ (logOf (runNmapScan failingEngine "localhost" "80").trace
      = ["\nTarget: " ++ "localhost" ++ ", Ports: " ++ "80", "This may take a moment..."]
        ++ (if ["no route"] = [] then []
            else ["\nWARNINGS: Scan finished with warnings: " ++ fmtStrings ["no route"]])
        ++ terminalEntries
            { progress := [], result := emptyRun, warnings := ["no route"],
              err := some "nmap not found" }
    ∧ ((logOf (runNmapScan failingEngine "localhost" "80").trace).filter isWarningsEntry).length
      = (if ["no route"] = [] then 0 else 1)
    ∧ (terminalEntries
            { progress := [], result := emptyRun, warnings := ["no route"],
              err := some "nmap not found" }).length ≤ 1
    ∧ ∀ e ∈ terminalEntries
            { progress := [], result := emptyRun, warnings := ["no route"],
              err := some "nmap not found" },
        isTerminalEntry e = true ∧ isWarningsEntry e = false) :=
  ⟨by decide,
   runNmapScan_warnings failingEngine "localhost" "80"
     { progress := [], result := emptyRun, warnings := ["no route"], err := some "nmap not found" }
     rfl⟩

/-- Counterexample for C8: when construction fails with "bad port spec", the
last log entry is the failure text with a leading line break; no entry of
the log starts with "ERROR:" and none is a report. -/
theorem runNmapScan_bad_port_terminal :
    (logOf (runNmapScan badPortEngine "scanme" "1-").trace).getLast?
      = some "\nERROR: Failed to create nmap scanner: bad port spec"
    ∧ ((logOf (runNmapScan badPortEngine "scanme" "1-").trace).filter
        (fun e => startsWith "ERROR:" e || isReportEntry e)).length = 0 := by
  decide

/-- C8, amended: for every outcome of construction and run on which
`formatResults` does not panic, the log ends with exactly one terminal
notification, preceded by entries that are none: it is either a failure
text, which starts with a line break followed by "ERROR:", or the report,
never both; it is the report, as `formatResults` returns it, exactly when
construction and run both returned no error. -/
theorem runNmapScan_terminal (NewScanner : String → String → Except String Scanner)
    (targetIP ports : String)
    (hfmt : ∀ scanner, NewScanner targetIP ports = Except.ok scanner → scanner.err = none →
      formatResults scanner.result ≠ none) :
    ∃ front terminal,
      logOf (runNmapScan NewScanner targetIP ports).trace = front ++ [terminal]
      ∧ (∀ e ∈ front, isTerminalEntry e = false)
      ∧ ((isErrorEntry terminal = true ∧ isReportEntry terminal = false)
          ∨ (isErrorEntry terminal = false ∧ isReportEntry terminal = true))
      ∧ (isReportEntry terminal = true ↔
          ∃ scanner, NewScanner targetIP ports = Except.ok scanner ∧ scanner.err = none)
      ∧ (∀ scanner, NewScanner targetIP ports = Except.ok scanner → scanner.err = none →
          formatResults scanner.result = some terminal) := by
  have h1 := start_entry targetIP ports
  have h2 := wait_entry
  cases hn : NewScanner targetIP ports with
  | error d =>
    have h3 := created_error_entry d
    refine ⟨["\nTarget: " ++ targetIP ++ ", Ports: " ++ ports, "This may take a moment..."],
      "\nERROR: Failed to create nmap scanner: " ++ d, ?_, ?_, ?_, ?_, ?_⟩
    · rw [log_error NewScanner targetIP ports d hn]
      rfl
    · intro e he
      simp only [List.mem_cons, List.mem_singleton, List.not_mem_nil, or_false] at he
      rcases he with he | he <;> subst he
      · simp [isTerminalEntry, h1.1, h1.2.1]
      · simp [isTerminalEntry, h2.1, h2.2.1]
    · exact Or.inl ⟨h3.2.1, h3.1⟩
    · simp [h3.1]
    · intro scanner hs
      cases hs
  | ok scanner =>
    have hlog := log_ok NewScanner targetIP ports scanner hn
    have hfront : ∀ e ∈ ["\nTarget: " ++ targetIP ++ ", Ports: " ++ ports,
        "This may take a moment..."] ++ warningEntries scanner, isTerminalEntry e = false := by
      intro e he
      simp only [List.mem_append, List.mem_cons, List.mem_singleton, List.not_mem_nil,
        or_false] at he
      rcases he with (he | he) | he
      · subst he
        simp [isTerminalEntry, h1.1, h1.2.1]
      · subst he
        simp [isTerminalEntry, h2.1, h2.2.1]
      · unfold warningEntries at he
        by_cases hw : scanner.warnings = []
        · simp [hw] at he
        · simp only [hw, if_false, List.mem_singleton] at he
          subst he
          have h3 := warnings_entry (fmtStrings scanner.warnings)
          simp [isTerminalEntry, h3.1, h3.2.1]
    cases he : scanner.err with
    | some d =>
      have h3 := run_error_entry d
      refine ⟨["\nTarget: " ++ targetIP ++ ", Ports: " ++ ports, "This may take a moment..."]
        ++ warningEntries scanner, "\nERROR: Unable to run nmap scan: " ++ d,
        ?_, hfront, Or.inl ⟨h3.2.1, h3.1⟩, ?_, ?_⟩
      · rw [hlog]
        simp [terminalEntries, he]
      · simp [h3.1, he]
      · intro s hs hse
        cases hs
        rw [he] at hse
        cases hse
    | none =>
      cases hf : formatResults scanner.result with
      | none => exact absurd hf (hfmt scanner hn he)
      | some text =>
        have h3 := report_entry scanner.result text hf
        refine ⟨["\nTarget: " ++ targetIP ++ ", Ports: " ++ ports, "This may take a moment..."]
          ++ warningEntries scanner, text, ?_, hfront, Or.inr ⟨h3.2.1, h3.1⟩, ?_, ?_⟩
        · rw [hlog]
          simp [terminalEntries, he, hf]
        · simp [h3.1, he]
        · intro s hs _
          cases hs
          exact hf

/-- Witness for C8, amended, on a run that succeeds with one warning. -/
theorem runNmapScan_terminal_witness :
    (∀ scanner, skewEngine "localhost" "80" = Except.ok scanner → scanner.err = none →
      formatResults scanner.result ≠ none) ∧
    ∃ front terminal,
      logOf (runNmapScan skewEngine "localhost" "80").trace = front ++ [terminal]
      ∧ (∀ e ∈ front, isTerminalEntry e = false)
      ∧ ((isErrorEntry terminal = true ∧ isReportEntry terminal = false)
          ∨ (isErrorEntry terminal = false ∧ isReportEntry terminal = true))
      ∧ (isReportEntry terminal = true ↔
          ∃ scanner, skewEngine "localhost" "80" = Except.ok scanner ∧ scanner.err = none)
      ∧ (∀ scanner, skewEngine "localhost" "80" = Except.ok scanner → scanner.err = none →
          formatResults scanner.result = some terminal) :=
  have hfmt : ∀ scanner, skewEngine "localhost" "80" = Except.ok scanner → scanner.err = none →
      formatResults scanner.result ≠ none := by
    intro scanner hs _
    cases hs
    decide
  ⟨hfmt, runNmapScan_terminal skewEngine "localhost" "80" hfmt⟩

theorem terminal_count (NewScanner : String → String → Except String Scanner)
    (targetIP ports : String) :
    ((logOf (runNmapScan NewScanner targetIP ports).trace).filter isTerminalEntry).length
        = (if (runNmapScan NewScanner targetIP ports).exit = Exit.returned then 1 else 0) := by
  have h1 := start_entry targetIP ports
  have h2 := wait_entry
  cases hn : NewScanner targetIP ports with
  | error d =>
    have h3 := created_error_entry d
    have hx : (runNmapScan NewScanner targetIP ports).exit = Exit.returned :=
      (scanBody_error NewScanner targetIP ports d hn).2
    rw [log_error NewScanner targetIP ports d hn, hx]
    simp [List.filter, isTerminalEntry, h1.1, h1.2.1, h2.1, h2.2.1, h3.2.1]
  | ok scanner =>
    have hx : (runNmapScan NewScanner targetIP ports).exit
        = (if scanner.err = none ∧ formatResults scanner.result = none then Exit.panicked
           else Exit.returned) := (scanBody_ok NewScanner targetIP ports scanner hn).2
    rw [log_ok NewScanner targetIP ports scanner hn, hx]
    have hw : (warningEntries scanner).filter isTerminalEntry = [] := by
      unfold warningEntries
      by_cases hw : scanner.warnings = []
      · simp [hw]
      · have h3 := warnings_entry (fmtStrings scanner.warnings)
        simp [hw, List.filter, isTerminalEntry, h3.1, h3.2.1]
    simp only [List.filter_append, hw, List.append_nil, List.length_append]
    cases he : scanner.err with
    | some d =>
      have h3 := run_error_entry d
      simp [terminalEntries, he, List.filter, isTerminalEntry, h1.1, h1.2.1, h2.1, h2.2.1,
        h3.2.1]
    | none =>
      cases hf : formatResults scanner.result with
      | none =>
        simp [terminalEntries, he, hf, List.filter, isTerminalEntry, h1.1, h1.2.1, h2.1,
          h2.2.1]
      | some text =>
        have h3 := report_entry scanner.result text hf
        simp [terminalEntries, he, hf, List.filter, isTerminalEntry, h1.1, h1.2.1, h2.1,
          h2.2.1, h3.1]

theorem exit_returned (NewScanner : String → String → Except String Scanner)
    (targetIP ports : String)
    (hfmt : ∀ scanner, NewScanner targetIP ports = Except.ok scanner → scanner.err = none →
      formatResults scanner.result ≠ none) :
    (runNmapScan NewScanner targetIP ports).exit = Exit.returned := by
  cases hn : NewScanner targetIP ports with
  | error d => exact (scanBody_error NewScanner targetIP ports d hn).2
  | ok scanner =>
    have hx : (runNmapScan NewScanner targetIP ports).exit
        = (if scanner.err = none ∧ formatResults scanner.result = none then Exit.panicked
           else Exit.returned) := (scanBody_ok NewScanner targetIP ports scanner hn).2
    rw [hx]
    cases he : scanner.err with
    | some d => simp
    | none =>
      have := hfmt scanner hn he
      simp [this]

theorem quiet_of_isSetValue (e : Event) (h : e.isSetValue = true) : e.quiet = true := by
  cases e <;> simp [Event.isSetValue, Event.quiet] at h ⊢

theorem logOf_filter_own (trace : List Event) : logOf (trace.filter Event.own) = logOf trace := by
  induction trace with
  | nil => rfl
  | cons e rest ih => cases e <;> simp [List.filter, Event.own, Event.isSetValue, logOf, ih]

theorem replay_filter_own (trace : List Event) (w v : Widgets)
    (hb : w.buttonEnabled = v.buttonEnabled) (hv : w.barVisible = v.barVisible) :
    (w.replay trace).buttonEnabled = (v.replay (trace.filter Event.own)).buttonEnabled
    ∧ (w.replay trace).barVisible = (v.replay (trace.filter Event.own)).barVisible := by
  induction trace generalizing w v with
  | nil => exact ⟨hb, hv⟩
  | cons e rest ih =>
    cases e with
    | barSetValue x k =>
      have h := ih (w.step (Event.barSetValue x k)) v hb hv
      simpa [List.filter, Event.own, Event.isSetValue, Widgets.replay] using h
    | buttonDisable =>
      have h := ih (w.step Event.buttonDisable) (v.step Event.buttonDisable) rfl hv
      simpa [List.filter, Event.own, Event.isSetValue, Widgets.replay] using h
    | buttonEnable =>
      have h := ih (w.step Event.buttonEnable) (v.step Event.buttonEnable) rfl hv
      simpa [List.filter, Event.own, Event.isSetValue, Widgets.replay] using h
    | barShow =>
      have h := ih (w.step Event.barShow) (v.step Event.barShow) hb rfl
      simpa [List.filter, Event.own, Event.isSetValue, Widgets.replay] using h
    | barHide =>
      have h := ih (w.step Event.barHide) (v.step Event.barHide) hb rfl
      simpa [List.filter, Event.own, Event.isSetValue, Widgets.replay] using h
    | outputSetText t =>
      have h := ih (w.step (Event.outputSetText t)) (v.step (Event.outputSetText t)) hb hv
      simpa [List.filter, Event.own, Event.isSetValue, Widgets.replay] using h
    | outputAppend t =>
      have h := ih (w.step (Event.outputAppend t)) (v.step (Event.outputAppend t)) hb hv
      simpa [List.filter, Event.own, Event.isSetValue, Widgets.replay] using h
    | newScanner a b =>
      have h := ih (w.step (Event.newScanner a b)) (v.step (Event.newScanner a b)) hb hv
      simpa [List.filter, Event.own, Event.isSetValue, Widgets.replay] using h
    | scannerRun =>
      have h := ih (w.step Event.scannerRun) (v.step Event.scannerRun) hb hv
      simpa [List.filter, Event.own, Event.isSetValue, Widgets.replay] using h

theorem startScan_trace (NewScanner : String → String → Except String Scanner)
    (ipText portsText : String) :
    (startScan NewScanner ipText portsText).trace
      = [Event.buttonDisable, Event.barSetValue (Float32.finite false 0 0) 1, Event.barShow,
          Event.outputSetText "Starting Nmap scan..."]
        ++ (runNmapScan NewScanner ipText portsText).trace := rfl

/-- Counterexample for C9: when the run succeeds with a host that has no
hostname, `runNmapScan` panics inside `formatResults`: the completion calls
are made, and the log holds no terminal notification, so the call produces
no outcome. -/
theorem runNmapScan_nameless_outcome :
    (runNmapScan namelessEngine "10.0.0.1" "22").trace
      = [Event.outputAppend "\nTarget: 10.0.0.1, Ports: 22",
         Event.outputAppend "This may take a moment...",
         Event.newScanner "10.0.0.1" "22", Event.scannerRun,
         Event.buttonEnable, Event.barHide]
    ∧ (runNmapScan namelessEngine "10.0.0.1" "22").exit = Exit.panicked
    ∧ ((logOf (runNmapScan namelessEngine "10.0.0.1" "22").trace).filter
        isTerminalEntry).length = 0 := by
  decide

/-- C9, amended: for every target, ports and engine behaviour on which
`formatResults` does not panic, and for every schedule of the goroutine that
drains the progress channel, one call of `runNmapScan` returns, logs exactly
one terminal notification, and makes each completion call (enable the scan
button, hide the progress bar) exactly once, on every branch: construction
failure, run failure and success. Started from the button callback, the
widgets are busy as long as no completion call has been made, and idle at
the end. -/
theorem runNmapScan_completes_once (NewScanner : String → String → Except String Scanner)
    (targetIP ports : String) (observed : List Event)
    (hfmt : ∀ scanner, NewScanner targetIP ports = Except.ok scanner → scanner.err = none →
      formatResults scanner.result ≠ none)
    (hobs : Observed (runNmapScan NewScanner targetIP ports).trace observed) :
    (runNmapScan NewScanner targetIP ports).exit = Exit.returned
    ∧ ((logOf observed).filter isTerminalEntry).length = 1
    ∧ observed.count Event.buttonEnable = 1
    ∧ observed.count Event.barHide = 1
    ∧ (∀ pre post, observed = pre ++ post → Event.buttonEnable ∉ pre → Event.barHide ∉ pre →
        ¬ (initialWidgets.replay
            ([Event.buttonDisable, Event.barSetValue (Float32.finite false 0 0) 1,
              Event.barShow, Event.outputSetText "Starting Nmap scan..."] ++ pre)).idle)
    ∧ (initialWidgets.replay
        ([Event.buttonDisable, Event.barSetValue (Float32.finite false 0 0) 1,
          Event.barShow, Event.outputSetText "Starting Nmap scan..."] ++ observed)).idle := by
  have hq := scanBody_quiet NewScanner targetIP ports
  have hnm := not_mem_of_quiet _ hq
  have htr : (runNmapScan NewScanner targetIP ports).trace
      = (scanBody NewScanner targetIP ports).trace ++ [Event.buttonEnable, Event.barHide] := rfl
  have hret := exit_returned NewScanner targetIP ports hfmt
  have hcount : ∀ e : Event, e.own = true →
      observed.count e = (runNmapScan NewScanner targetIP ports).trace.count e := by
    intro e he
    rw [← List.count_filter he, hobs.1, List.count_filter he]
  refine ⟨hret, ?_, ?_, ?_, ?_, ?_⟩
  · rw [← logOf_filter_own observed, hobs.1, logOf_filter_own, terminal_count, hret]
    rfl
  · rw [hcount Event.buttonEnable rfl, htr, List.count_append,
      List.count_eq_zero_of_not_mem hnm.1]
    rfl
  · rw [hcount Event.barHide rfl, htr, List.count_append,
      List.count_eq_zero_of_not_mem hnm.2]
    rfl
  · intro pre post hsplit hne hnh hidle
    have hpq : ∀ e ∈ pre, e.quiet = true := by
      intro e he
      by_cases hs : e.isSetValue = true
      · exact quiet_of_isSetValue e hs
      · have hown : e.own = true := by simp [Event.own, hs]
        have hmem : e ∈ observed.filter Event.own :=
          List.mem_filter.2 ⟨by rw [hsplit]; exact List.mem_append_left _ he, hown⟩
        rw [hobs.1] at hmem
        have hin := (List.mem_filter.1 hmem).1
        rw [htr] at hin
        rcases List.mem_append.1 hin with hb | hc
        · exact hq e hb
        · simp only [List.mem_cons, List.mem_singleton, List.not_mem_nil, or_false] at hc
          rcases hc with hc | hc
          · exact absurd (hc ▸ he) hne
          · exact absurd (hc ▸ he) hnh
    rw [replay_append] at hidle
    have hflag := (replay_quiet pre (initialWidgets.replay [Event.buttonDisable,
      Event.barSetValue (Float32.finite false 0 0) 1, Event.barShow,
      Event.outputSetText "Starting Nmap scan..."]) hpq).1
    rw [hidle.1] at hflag
    cases hflag
  · rw [replay_append]
    generalize hw : initialWidgets.replay [Event.buttonDisable,
      Event.barSetValue (Float32.finite false 0 0) 1, Event.barShow,
      Event.outputSetText "Starting Nmap scan..."] = w
    have h1 := replay_filter_own observed w w rfl rfl
    have h2 := replay_filter_own (runNmapScan NewScanner targetIP ports).trace w w rfl rfl
    rw [hobs.1] at h1
    have h3 : (w.replay (runNmapScan NewScanner targetIP ports).trace).idle := by
      rw [htr, replay_append]
      exact ⟨rfl, rfl⟩
    exact ⟨h1.1.trans (h2.1.symm.trans h3.1), h1.2.trans (h2.2.symm.trans h3.2)⟩

/-- Witness for C9, amended, on a run that succeeds with one warning and whose
second progress value is delivered after the completion calls. -/
theorem runNmapScan_completes_once_witness :
    (∀ scanner, skewEngine "localhost" "80" = Except.ok scanner → scanner.err = none →
      formatResults scanner.result ≠ none)
    ∧ Observed (runNmapScan skewEngine "localhost" "80").trace lateObservation
    ∧ ((runNmapScan skewEngine "localhost" "80").exit = Exit.returned
    ∧ ((logOf lateObservation).filter isTerminalEntry).length = 1
    ∧ lateObservation.count Event.buttonEnable = 1
    ∧ lateObservation.count Event.barHide = 1
    ∧ (∀ pre post, lateObservation = pre ++ post → Event.buttonEnable ∉ pre →
        Event.barHide ∉ pre →
        ¬ (initialWidgets.replay
            ([Event.buttonDisable, Event.barSetValue (Float32.finite false 0 0) 1,
              Event.barShow, Event.outputSetText "Starting Nmap scan..."] ++ pre)).idle)
    ∧ (initialWidgets.replay
        ([Event.buttonDisable, Event.barSetValue (Float32.finite false 0 0) 1,
          Event.barShow, Event.outputSetText "Starting Nmap scan..."] ++ lateObservation)).idle) :=
  have hfmt : ∀ scanner, skewEngine "localhost" "80" = Except.ok scanner → scanner.err = none →
      formatResults scanner.result ≠ none := by
    intro scanner hs _
    cases hs
    decide
  have hobs : Observed (runNmapScan skewEngine "localhost" "80").trace lateObservation := by
    decide
  ⟨hfmt, hobs, runNmapScan_completes_once skewEngine "localhost" "80" lateObservation hfmt hobs⟩

end NmapGui
